import Mathlib

/-!
Shallow embedding of the `pyfresh` project generator
(`src/pyfresh/config.py`, `src/pyfresh/templates.py`,
`src/project_generator/generator.py`) for checking the natural-language
specification against the code.

Python dictionaries are modelled as insertion-ordered association lists
over `String` keys; YAML/JSON-like values as the inductive `Val`.
Filesystem writes are modelled as an explicit effect trace; stdout
printing and the external `git` subprocess are out of the modelled core
(the spec treats them as external collaborators).
-/

set_option linter.unusedVariables false

namespace Pyfresh

/-- A YAML/JSON-like configuration value: scalar string, integer,
boolean, list, or nested mapping (insertion-ordered association list,
as a Python `dict`). -/
inductive Val where
  | vstr (s : String)
  | vint (n : Int)
  | vbool (b : Bool)
  | vlist (xs : List Val)
  | vdict (m : List (String × Val))
deriving Repr

/-- `m[k]` lookup on an association-list dictionary (first match; Python
dicts have unique keys). -/
def assocGet (m : List (String × Val)) (k : String) : Option Val :=
  match m with
  | [] => none
  | (k', v) :: rest => if k' = k then some v else assocGet rest k

/-- `m[k] = v` assignment on an association-list dictionary: updates the
first binding of `k` in place, or appends a new binding at the end
(Python dict insertion-order semantics). -/
def assocSet (m : List (String × Val)) (k : String) (v : Val) :
    List (String × Val) :=
  match m with
  | [] => [(k, v)]
  | (k', v') :: rest =>
    if k' = k then (k', v) :: rest else (k', v') :: assocSet rest k v

/-- Is the value a mapping? (`isinstance(value, dict)`). -/
def Val.isDict : Val → Bool
  | .vdict _ => true
  | _ => false

mutual
/-- `Config._deep_merge` (config.py:81-88), as a pure function
returning the merged content of `base`: for each `key, value` in
`override` (in order), perform one loop iteration (`mergeStep`). -/
def deepMerge : List (String × Val) → List (String × Val) →
    List (String × Val)
  | base, [] => base
  | base, (k, v) :: rest => deepMerge (mergeStep base k v) rest
termination_by _ o => (sizeOf o, 0)

/-- One iteration of the `_deep_merge` loop body (config.py:84-88): if
`key` is in `base` and both `base[key]` and `value` are dicts,
recursively merge them in `base[key]`, else `base[key] = value`. -/
def mergeStep (base : List (String × Val)) (k : String) (v : Val) :
    List (String × Val) :=
  match assocGet base k, v with
  | some (Val.vdict bd), Val.vdict od =>
      assocSet base k (Val.vdict (deepMerge bd od))
  | _, _ => assocSet base k v
termination_by (sizeOf v, 1)
end

/-- `Config.DEFAULT_CONFIG` (config.py:12-56), transcribed literally. -/
def DEFAULT_CONFIG : List (String × Val) :=
  [ ("author", .vdict
      [ ("name", .vstr "Your Name")
      , ("email", .vstr "your.email@example.com") ])
  , ("templates", .vdict
      [ ("standard", .vdict
          [ ("description",
             .vstr "Standard Python project with common tools")
          , ("dependencies", .vlist [.vstr "pandas>=2.3.1,<3.0.0"])
          , ("dev_dependencies", .vdict
              [ ("poetry", .vlist
                  [.vstr "pytest^7.4.0", .vstr "black^24.0.0",
                   .vstr "mypy^1.8.0"])
              , ("uv", .vlist
                  [.vstr "pytest>=7.4.0", .vstr "black>=24.0.0",
                   .vstr "mypy>=1.8.0"]) ])
          , ("files", .vlist
              [.vstr "gitignore", .vstr "readme", .vstr "makefile",
               .vstr "main", .vstr "test"]) ])
      , ("minimal", .vdict
          [ ("description", .vstr "Minimal Python project structure")
          , ("dependencies", .vlist [])
          , ("dev_dependencies", .vdict
              [ ("poetry", .vlist [.vstr "pytest^7.4.0"])
              , ("uv", .vlist [.vstr "pytest>=7.4.0"]) ])
          , ("files", .vlist
              [.vstr "gitignore", .vstr "readme", .vstr "main"]) ])
      , ("cli", .vdict
          [ ("description", .vstr "CLI application template")
          , ("dependencies", .vlist [.vstr "click>=8.0.0"])
          , ("dev_dependencies", .vdict
              [ ("poetry", .vlist
                  [.vstr "pytest^7.4.0", .vstr "black^24.0.0"])
              , ("uv", .vlist
                  [.vstr "pytest>=7.4.0", .vstr "black>=24.0.0"]) ])
          , ("files", .vlist
              [.vstr "gitignore", .vstr "readme", .vstr "makefile",
               .vstr "cli_main", .vstr "test"]) ])
      , ("web", .vdict
          [ ("description", .vstr "Web application template")
          , ("dependencies", .vlist
              [.vstr "fastapi>=0.100.0", .vstr "uvicorn>=0.20.0"])
          , ("dev_dependencies", .vdict
              [ ("poetry", .vlist
                  [.vstr "pytest^7.4.0", .vstr "black^24.0.0",
                   .vstr "httpx^0.24.0"])
              , ("uv", .vlist
                  [.vstr "pytest>=7.4.0", .vstr "black>=24.0.0",
                   .vstr "httpx>=0.24.0"]) ])
          , ("files", .vlist
              [.vstr "gitignore", .vstr "readme", .vstr "makefile",
               .vstr "web_main", .vstr "test"]) ]) ])
  , ("python_version", .vstr ">=3.11") ]

/-- Python `str.strip()`: remove leading and trailing whitespace. -/
def pyStrip (s : String) : String :=
  ⟨((s.data.dropWhile Char.isWhitespace).reverse.dropWhile
      Char.isWhitespace).reverse⟩

/-- Python `str.replace(a, b)` for the single-character patterns the
program uses (`" "→"_"`, `"-"→"_"`), where it is a per-character
map. -/
def pyReplaceChar (s : String) (a b : Char) : String :=
  ⟨s.data.map fun c => if c = a then b else c⟩

/-- Python `str.lower()`. -/
def pyLower (s : String) : String :=
  ⟨s.data.map Char.toLower⟩

/-- Python `str.split(sep)` for the single-character separators the
program uses (`key.split('.')`, `dep.split("^")`); always returns a
non-empty list. -/
def splitOnChar (s : String) (sep : Char) : List String :=
  go s.data []
where
  go : List Char → List Char → List String
    | [], acc => [⟨acc.reverse⟩]
    | c :: cs, acc =>
      if c = sep then ⟨acc.reverse⟩ :: go cs [] else go cs (c :: acc)

/-- The traversal loop of `Config.get` (config.py:90-101): walks the
already-split key segments; returns `default` if a segment is absent or
the current value is not a mapping. -/
def dotGet (v : Val) (ks : List String) (default : Val) : Val :=
  match ks with
  | [] => v
  | k :: rest =>
    match v with
    | .vdict m =>
      match assocGet m k with
      | some v' => dotGet v' rest default
      | none => default
    | _ => default

/-- `Config.get` (config.py:90-101): dotted-path lookup,
`key.split('.')` then traversal. -/
def cfgGet (data : List (String × Val)) (key : String) (default : Val) :
    Val :=
  dotGet (.vdict data) (splitOnChar key '.') default

/-- `Config.get_template` (config.py:103-108):
`templates = self.get("templates", {})`; raises `ValueError` (here
`none`) when `template_name` is not a key. The Python `in`/`[]` on a
non-dict `templates` value (possible only through a type-confusing
override) is not modelled: that case also never returns a template. -/
def getTemplate (data : List (String × Val)) (templateName : String) :
    Option Val :=
  match cfgGet data "templates" (.vdict []) with
  | .vdict ts => assocGet ts templateName
  | _ => none

/-- The two environment-variable overrides of `Config.load`
(config.py:74-77): `config_data["author"]["name"] = ...` (resp.
`"email"`). Modelled only for the case where `data["author"]` is a
mapping; otherwise Python raises `TypeError` and no configuration is
produced. -/
def setAuthorField (data : List (String × Val)) (field v : String) :
    List (String × Val) :=
  match assocGet data "author" with
  | some (.vdict a) =>
    assocSet data "author" (.vdict (assocSet a field (.vstr v)))
  | _ => data

/-- The value of the `Config.data` returned by `Config.load`
(config.py:62-79): defaults, deep-merged with the parsed override
document when one is given (`overrideDoc = some o`; `none` covers both
"no config path" and an empty/absent document), then the two
environment-variable overrides. YAML parsing itself is an external
collaborator; `overrideDoc` is the already-parsed mapping. -/
def loadData (defaults : List (String × Val))
    (overrideDoc : Option (List (String × Val)))
    (envName envEmail : Option String) : List (String × Val) :=
  let d := match overrideDoc with
    | some o => deepMerge defaults o
    | none => defaults
  let d := match envName with
    | some n => setAuthorField d "name" n
    | none => d
  match envEmail with
  | some e => setAuthorField d "email" e
  | none => d

/-- The state of the class attribute `Config.DEFAULT_CONFIG` after one
`Config.load` call (config.py:62-79). `cls.DEFAULT_CONFIG.copy()` is a
SHALLOW copy: `config_data` is a fresh top-level dict whose values are
the very dict objects stored in `DEFAULT_CONFIG`. Consequently:

* `_deep_merge(config_data, override)`: a top-level assignment
  `base[key] = value` touches only the copy, but when `base[key]` and
  `value` are both dicts the recursive `_deep_merge(base[key], value)`
  mutates the shared nested dict in place — all levels below the top
  live inside `DEFAULT_CONFIG`, so `DEFAULT_CONFIG[key]` becomes the
  full deep merge of its old value with `override[key]`;
* the environment overrides assign into `config_data["author"]`, which
  is still `DEFAULT_CONFIG["author"]` whenever the override document
  did not rebind `"author"` at top level to a non-dict (in the dict-dict
  case the merge mutated in place, preserving object identity). -/
def defaultsAfterLoad (defaults : List (String × Val))
    (overrideDoc : Option (List (String × Val)))
    (envName envEmail : Option String) : List (String × Val) :=
  let d := match overrideDoc with
    | some o =>
      o.foldl (fun d kv =>
        match assocGet d kv.1, kv.2 with
        | some (Val.vdict bd), Val.vdict od =>
            assocSet d kv.1 (Val.vdict (deepMerge bd od))
        | _, _ => d) defaults
    | none => defaults
  let envShared : Bool := match overrideDoc with
    | none => true
    | some o =>
      match assocGet o "author" with
      | none => true
      | some (.vdict _) => (assocGet defaults "author").any Val.isDict
      | some _ => false
  if envShared then
    let d := match envName with
      | some n => setAuthorField d "name" n
      | none => d
    match envEmail with
    | some e => setAuthorField d "email" e
    | none => d
  else d

/-- A (possibly nested) key path is reachable in a mapping: each
segment resolves, descending through nested mappings; the final segment
may resolve to any value. -/
def pathReachable (m : List (String × Val)) : List String → Bool
  | [] => true
  | k :: rest =>
    match assocGet m k with
    | some (.vdict m') => pathReachable m' rest
    | some _ => rest.isEmpty
    | none => false

/-! ## Template renderer (`src/pyfresh/templates.py`) -/

/-- The `context` dict built by `ProjectGenerator.generate`
(generator.py:50-58); every renderer reads it read-only. -/
structure Ctx where
  project_name : String
  package_name : String
  author : String
  email : String
  description : String
  tool : String
  python_version : String

/-- Python `template_config.get(k, default)`. The renderers only ever
receive the dict looked up from the configuration; a non-dict value
(which would raise `AttributeError` in Python) yields the default
here. -/
def vGet (v : Val) (k : String) (default : Val) : Val :=
  match v with
  | .vdict m => (assocGet m k).getD default
  | _ => default

/-- Extracts the string elements of a list value; the program only ever
stores lists of strings in `files`, `dependencies` and
`dev_dependencies`. -/
def vStrList : Val → List String
  | .vlist xs => xs.filterMap fun x =>
      match x with
      | .vstr s => some s
      | _ => none
  | _ => []

/-- `TemplateRenderer._render_gitignore` (templates.py:36-75). -/
def render_gitignore (_ctx : Ctx) (_tc : Val) (_tool : String) :
    String :=
  "__pycache__/\n*.pyc\n*.pyo\n*.pyd\n.Python\nenv/\npip-log.txt\n" ++
  "pip-delete-this-directory.txt\n.tox\n.coverage\n.coverage.*\n" ++
  ".cache\nnosetests.xml\ncoverage.xml\n*.cover\n*.log\n.git\n" ++
  ".mypy_cache\n.pytest_cache\n.hypothesis\n\n.DS_Store\n.vscode/\n" ++
  ".idea/\n\n.env\n.venv/\nvenv/\nENV/\n\ndist/\nbuild/\n" ++
  "*.egg-info/\n*.egg\n\n.pdm-python\n.pdm-build/\n"

/-- `TemplateRenderer._render_readme` (templates.py:77-122). -/
def render_readme (ctx : Ctx) (_tc : Val) (tool : String) : String :=
  let install_cmd := if tool = "poetry" then "poetry install" else "uv sync"
  let runCmd :=
    if tool = "poetry" then
      "poetry run python -m " ++ ctx.package_name
    else
      "uv run python -m " ++ ctx.package_name
  "# " ++ ctx.project_name ++ "\n\n" ++ ctx.description ++
  "\n\n## Installation\n\n```bash\n" ++ install_cmd ++
  "\n```\n\n## Usage\n\n```bash\n" ++ runCmd ++
  "\n```\n\n## Development\n\n```bash\n# Install dependencies\n" ++
  install_cmd ++
  "\n\n# Run tests\nmake test\n\n# Format code\nmake lint\n```\n\n" ++
  "## License\n\nMIT License\n"

/-- `TemplateRenderer._render_makefile` (templates.py:124-159): two
fixed variants keyed by tool. -/
def render_makefile (_ctx : Ctx) (_tc : Val) (tool : String) : String :=
  if tool = "poetry" then
    "install:\n\tpoetry install\n\nlint:\n\tpoetry run black src tests\n" ++
    "\tpoetry run mypy src\n\ntest:\n\tpoetry run pytest\n\nclean:\n" ++
    "\tfind . -type f -name \"*.pyc\" -delete\n" ++
    "\tfind . -type d -name \"__pycache__\" -delete\n\n" ++
    ".PHONY: install lint test clean\n"
  else
    "install:\n\tuv sync\n\nlint:\n\tuv run black src tests\n" ++
    "\tuv run mypy src\n\ntest:\n\tuv run pytest\n\nclean:\n" ++
    "\tfind . -type f -name \"*.pyc\" -delete\n" ++
    "\tfind . -type d -name \"__pycache__\" -delete\n\n" ++
    ".PHONY: install lint test clean\n"

/-- `TemplateRenderer._render_main` (templates.py:161-170): fixed
boilerplate. -/
def render_main (_ctx : Ctx) (_tc : Val) (_tool : String) : String :=
  "def main():\n    \"\"\"Main entry point.\"\"\"\n" ++
  "    print(\"Hello from main!\")\n\n\n" ++
  "if __name__ == \"__main__\":\n    main()\n"

/-- `TemplateRenderer._render_cli_main` (templates.py:172-186): fixed
boilerplate. -/
def render_cli_main (_ctx : Ctx) (_tc : Val) (_tool : String) : String :=
  "import click\n\n\n@click.command()\n" ++
  "@click.option(\x27--name\x27, default=\x27World\x27, help=\x27Name to greet.\x27)\n" ++
  "def main(name):\n    \"\"\"Simple CLI application.\"\"\"\n" ++
  "    click.echo(f\x27Hello \x7bname\x7d!\x27)\n\n\n" ++
  "if __name__ == \x27__main__\x27:\n    main()\n"

/-- `TemplateRenderer._render_web_main` (templates.py:188-208): fixed
boilerplate. -/
def render_web_main (_ctx : Ctx) (_tc : Val) (_tool : String) : String :=
  "from fastapi import FastAPI\n\napp = FastAPI()\n\n\n" ++
  "@app.get(\"/\")\nasync def root():\n" ++
  "    return \x7b\"message\": \"Hello World\"\x7d\n\n\n" ++
  "@app.get(\"/health\")\nasync def health():\n" ++
  "    return \x7b\"status\": \"healthy\"\x7d\n\n\n" ++
  "if __name__ == \"__main__\":\n    import uvicorn\n" ++
  "    uvicorn.run(app, host=\"0.0.0.0\", port=8000)\n"

/-- `TemplateRenderer._render_test` (templates.py:210-245): picks one
of three fixed test bodies, and a matching module-import line, from
which file types the template definition includes. -/
def render_test (ctx : Ctx) (tc : Val) (_tool : String) : String :=
  let files := vStrList (vGet tc "files" (.vlist []))
  let pair :=
    if files.contains "cli_main" then
      ( "from " ++ ctx.package_name ++ ".cli import main"
      , "def test_main():\n    \"\"\"Test CLI main function.\"\"\"\n" ++
        "    from click.testing import CliRunner\n" ++
        "    runner = CliRunner()\n" ++
        "    result = runner.invoke(main, [\x27--name\x27, \x27Test\x27])\n" ++
        "    assert result.exit_code == 0\n" ++
        "    assert \x27Hello Test!\x27 in result.output" )
    else if files.contains "web_main" then
      ( "from " ++ ctx.package_name ++ ".app import app"
      , "def test_root():\n    \"\"\"Test web app root endpoint.\"\"\"\n" ++
        "    from fastapi.testclient import TestClient\n" ++
        "    client = TestClient(app)\n" ++
        "    response = client.get(\"/\")\n" ++
        "    assert response.status_code == 200\n" ++
        "    assert response.json() == \x7b\"message\": \"Hello World\"\x7d" )
    else
      ( "from " ++ ctx.package_name ++ ".main import main"
      , "def test_main(capsys):\n    \"\"\"Test main function.\"\"\"\n" ++
        "    main()\n    captured = capsys.readouterr()\n" ++
        "    assert \"Hello\" in captured.out" )
  pair.1 ++ "\n\n\n" ++ pair.2 ++ "\n"

/-- `TemplateRenderer._render_poetry_pyproject` (templates.py:282-326).
The interpolations of the Python f-string become explicit
concatenations; `dep.split("^")[0]` is `(dep.splitOn "^").headD ""`
(Python `split` always returns a non-empty list, so `[0]` never
fails). -/
def render_poetry_pyproject (project_name package_name author email
    description python_version : String)
    (dependencies dev_deps : List String) : String :=
  let deps_str :=
    if dependencies.isEmpty then ""
    else String.intercalate "\n" (dependencies.map fun dep => "\"" ++ dep ++ "\"")
  let dev_deps_str :=
    String.intercalate "\n" (dev_deps.map fun dep =>
      (splitOnChar dep '^').headD "" ++ " = \"" ++ dep ++ "\"")
  "[tool.poetry]\nname = \"" ++ package_name ++
  "\"\nversion = \"0.1.0\"\ndescription = \"" ++ description ++
  "\"\nauthors = [\"" ++ author ++ " <" ++ email ++
  ">\"]\nreadme = \"README.md\"\npackages = [\x7binclude = \"" ++
  package_name ++
  "\", from = \"src\"\x7d]\n\n[tool.poetry.dependencies]\npython = \"" ++
  python_version ++ "\"\n" ++ deps_str ++
  "\n\n[tool.poetry.group.dev.dependencies]\n" ++ dev_deps_str ++
  "\n\n[build-system]\nrequires = [\"poetry-core>=1.0.0\"]\n" ++
  "build-backend = \"poetry.core.masonry.api\"\n\n[tool.black]\n" ++
  "line-length = 88\ntarget-version = [\x27py311\x27]\n\n[tool.mypy]\n" ++
  "python_version = \"3.11\"\nwarn_return_any = true\n" ++
  "warn_unused_configs = true\n"

/-- `TemplateRenderer._render_uv_pyproject` (templates.py:328-380). -/
def render_uv_pyproject (project_name package_name author email
    description python_version : String)
    (dependencies dev_deps : List String) : String :=
  let deps_str :=
    if dependencies.isEmpty then ""
    else String.intercalate "\n" (dependencies.map fun dep => "    \"" ++ dep ++ "\",")
  let dev_deps_str :=
    String.intercalate "\n" (dev_deps.map fun dep => "    \"" ++ dep ++ "\",")
  "[project]\nname = \"" ++ package_name ++
  "\"\nversion = \"0.1.0\"\ndescription = \"" ++ description ++
  "\"\nauthors = [\n    \x7bname = \"" ++ author ++ "\", email = \"" ++
  email ++ "\"\x7d\n]\nreadme = \"README.md\"\nrequires-python = \"" ++
  python_version ++ "\"\ndependencies = [\n" ++ deps_str ++
  "\n]\n\n[project.optional-dependencies]\ndev = [\n" ++ dev_deps_str ++
  "\n]\n\n[build-system]\nrequires = [\"hatchling\"]\n" ++
  "build-backend = \"hatchling.build\"\n\n[tool.uv]\n" ++
  "dev-dependencies = [\n" ++ dev_deps_str ++
  "\n]\n\n[tool.black]\nline-length = 88\n" ++
  "target-version = [\x27py311\x27]\n\n[tool.mypy]\n" ++
  "python_version = \"3.11\"\nwarn_return_any = true\n" ++
  "warn_unused_configs = true\n"

/-- `TemplateRenderer._render_pyproject` (templates.py:247-280):
extracts context fields and template dependency lists, then dispatches
on the tool. -/
def render_pyproject (ctx : Ctx) (tc : Val) (tool : String) : String :=
  let dependencies := vStrList (vGet tc "dependencies" (.vlist []))
  let dev_deps :=
    vStrList (vGet (vGet tc "dev_dependencies" (.vdict [])) tool (.vlist []))
  if tool = "poetry" then
    render_poetry_pyproject ctx.project_name ctx.package_name ctx.author
      ctx.email ctx.description ctx.python_version dependencies dev_deps
  else
    render_uv_pyproject ctx.project_name ctx.package_name ctx.author
      ctx.email ctx.description ctx.python_version dependencies dev_deps

/-- The closed set of file-type identifiers that `render_file` does NOT
rewrite to `"pyproject"` (templates.py:19-27). -/
def knownFileTypes : List String :=
  ["gitignore", "readme", "makefile", "main", "cli_main", "web_main",
   "test"]

/-- `TemplateRenderer.render_file` (templates.py:13-34): any file type
outside `knownFileTypes` is rewritten to `"pyproject"`; then the Python
`hasattr`/`getattr` dispatch finds the `_render_<file_type>` method, or
raises `ValueError` (`Except.error`) when no such method exists — the
defensive dead branch. -/
def render_file (file_type : String) (ctx : Ctx) (tc : Val)
    (tool : String) : Except String String :=
  let ft :=
    if knownFileTypes.contains file_type then file_type else "pyproject"
  if ft = "gitignore" then .ok (render_gitignore ctx tc tool)
  else if ft = "readme" then .ok (render_readme ctx tc tool)
  else if ft = "makefile" then .ok (render_makefile ctx tc tool)
  else if ft = "main" then .ok (render_main ctx tc tool)
  else if ft = "cli_main" then .ok (render_cli_main ctx tc tool)
  else if ft = "web_main" then .ok (render_web_main ctx tc tool)
  else if ft = "test" then .ok (render_test ctx tc tool)
  else if ft = "pyproject" then .ok (render_pyproject ctx tc tool)
  else .error ("Unknown file type: " ++ ft)

/-! ## Project generator (`src/project_generator/generator.py`)

Filesystem mutations are recorded as an explicit effect trace; paths are
strings joined with `/` as `pathlib` does. Printing to stdout is not a
filesystem effect and is not modelled; the `git` subprocess of
`_init_git_repo` is an external collaborator, recorded as a `gitInit`
marker that touches no modelled path. -/

/-- One filesystem mutation performed by the generator. -/
inductive Eff where
  | mkdir (path : String)
  | rmtree (path : String)
  | write (path content : String)
  | gitInit (path : String)
deriving Repr, DecidableEq

/-- The filesystem is the set (list) of existing paths. -/
def fsExists (fs : List String) (p : String) : Bool := fs.contains p

/-- Applying one effect to the filesystem: `mkdir` and `write` make the
path exist, `rmtree p` removes `p` and everything below it, `gitInit`
runs an external tool and touches no modelled path. -/
def applyEff (fs : List String) : Eff → List String
  | .mkdir p => if fs.contains p then fs else fs ++ [p]
  | .write p _ => if fs.contains p then fs else fs ++ [p]
  | .rmtree p => fs.filter fun q => !(q = p || (p ++ "/").isPrefixOf q)
  | .gitInit _ => fs

/-- Applying a trace of effects in order. -/
def applyEffects (fs : List String) (effs : List Eff) : List String :=
  effs.foldl applyEff fs

/-- `ProjectGenerator._get_file_path` (generator.py:176-195): the fixed
file-type → relative-path table; an identifier outside the table maps
to itself (`file_paths[file_type] = f"{file_type}"`). -/
def getFilePath (file_type : String) (package_name : String) : String :=
  if file_type = "gitignore" then ".gitignore"
  else if file_type = "readme" then "README.md"
  else if file_type = "makefile" then "Makefile"
  else if file_type = "main" then "src/" ++ package_name ++ "/main.py"
  else if file_type = "cli_main" then "src/" ++ package_name ++ "/cli.py"
  else if file_type = "web_main" then "src/" ++ package_name ++ "/app.py"
  else if file_type = "test" then "tests/test_main.py"
  else if file_type = "pyproject" then "pyproject.toml"
  else file_type

/-- `Path.parent` on a `/`-joined path string: drops the last
component. -/
def parentDir (p : String) : String :=
  String.intercalate "/" ((p.splitOn "/").dropLast)

/-- The `"pyproject"` appension of `_create_project_structure`
(generator.py:147-149): `if "pyproject" not in files_to_create:
files_to_create = files_to_create + ["pyproject"]`. -/
def filesWithManifest (files : List String) : List String :=
  if files.contains "pyproject" then files else files ++ ["pyproject"]

/-- The per-file loop of `_create_project_structure`
(generator.py:151-174): render, compute the path, and (unless dry-run)
ensure the parent directory exists and write the file; any rendering
error aborts, returning `false` and contributing no further effects
(already-written files are not rolled back). -/
def createFiles (project_dir : String) (ctx : Ctx) (tc : Val)
    (tool : String) (dry_run : Bool) :
    List String → Bool × List Eff
  | [] => (true, [])
  | file_type :: rest =>
    match render_file file_type ctx tc tool with
    | .error _ => (false, [])
    | .ok file_content =>
      let file_path := getFilePath file_type ctx.package_name
      let full_path := project_dir ++ "/" ++ file_path
      if dry_run then createFiles project_dir ctx tc tool dry_run rest
      else
        let r := createFiles project_dir ctx tc tool dry_run rest
        (r.1, .mkdir (parentDir full_path) :: .write full_path file_content :: r.2)

/-- `ProjectGenerator._create_project_structure`
(generator.py:119-174): creates `src/<package_name>` and `tests` (real
run only), appends the manifest to the template's file list, and runs
the per-file loop. -/
def createProjectStructure (project_dir : String) (ctx : Ctx)
    (template_config : Val) (tool : String) (dry_run : Bool) :
    Bool × List Eff :=
  let package_name := ctx.package_name
  let directories := ["src/" ++ package_name, "tests"]
  let dirEffs :=
    if dry_run then []
    else directories.map fun d => Eff.mkdir (project_dir ++ "/" ++ d)
  let files_to_create :=
    filesWithManifest (vStrList (vGet template_config "files" (.vlist [])))
  let r := createFiles project_dir ctx template_config tool dry_run
    files_to_create
  (r.1, dirEffs ++ r.2)

/-- `ProjectGenerator._prompt_if_needed` (generator.py:109-117):
prompts (reading from `stdin`, the external interactive collaborator)
when the default is empty or one of the two placeholder values;
otherwise returns the default. -/
def promptIfNeeded (stdin : String → String) (prompt default : String) :
    String :=
  if default = "" || default = "Your Name" ||
      default = "your.email@example.com" then
    let value := pyStrip (stdin prompt)
    if value = "" then default else value
  else default

/-- Python truthiness of an optional string argument
(`if not author:`). -/
def isBlank : Option String → Bool
  | none => true
  | some s => s = ""

/-- `ProjectGenerator.generate` (generator.py:21-107) over the loaded
configuration data. Returns the success flag and the trace of
filesystem effects, in order. `fs` is the pre-state used for the
`project_dir.exists()` check; `stdin` models the interactive prompt
collaborator. -/
def generate (configData : List (String × Val))
    (stdin : String → String) (project_name : String)
    (author email description : Option String)
    (template tool : String) (output_dir : String)
    (force dry_run : Bool) (fs : List String) : Bool × List Eff :=
  let project_name := pyReplaceChar (pyStrip project_name) ' ' '_'
  let package_name := pyReplaceChar (pyLower project_name) '-' '_'
  let author_info := cfgGet configData "author" (.vdict [])
  let author :=
    if isBlank author then
      promptIfNeeded stdin "Author name"
        (match vGet author_info "name" (.vstr "") with
         | .vstr s => s
         | _ => "")
    else author.getD ""
  let email :=
    if isBlank email then
      promptIfNeeded stdin "Author email"
        (match vGet author_info "email" (.vstr "") with
         | .vstr s => s
         | _ => "")
    else email.getD ""
  let description :=
    if isBlank description then
      "A Python project generated with project-generator"
    else description.getD ""
  let ctx : Ctx :=
    { project_name := project_name
    , package_name := package_name
    , author := author
    , email := email
    , description := description
    , tool := tool
    , python_version :=
        match cfgGet configData "python_version" (.vstr ">=3.11") with
        | .vstr s => s
        | _ => ">=3.11" }
  match getTemplate configData template with
  | none => (false, [])
  | some template_config =>
    let project_dir := output_dir ++ "/" ++ project_name
    if fsExists fs project_dir && !force then (false, [])
    else
      let preEffs :=
        if fsExists fs project_dir && !dry_run then
          [Eff.rmtree project_dir]
        else []
      let mkEffs := if dry_run then [] else [Eff.mkdir project_dir]
      let r := createProjectStructure project_dir ctx template_config
        tool dry_run
      let gitEffs :=
        if r.1 && !dry_run then [Eff.gitInit project_dir] else []
      (r.1, preEffs ++ mkEffs ++ r.2 ++ gitEffs)

/-- `needle` occurs verbatim inside `hay`. -/
def strContains (hay needle : String) : Prop :=
  needle.data <:+: hay.data

/-- A sample render context for concrete instantiations. -/
def sampleCtx : Ctx :=
  { project_name := "p", package_name := "p", author := "A"
  , email := "a@b.c", description := "d", tool := "poetry"
  , python_version := ">=3.11" }

/-- A sample template definition whose file list holds an identifier
outside the renderer's closed set. -/
def sampleTc : Val :=
  .vdict [("files", .vlist [.vstr "weird"])]

/-! ## Helper lemmas: association lists and deep merge -/

theorem assocGet_assocSet_self (m : List (String × Val)) (k : String)
    (v : Val) : assocGet (assocSet m k v) k = some v := by
  induction m with
  | nil => simp [assocGet, assocSet]
  | cons p rest ih =>
    by_cases h : p.1 = k
    · simp [assocGet, assocSet, h]
    · simp [assocGet, assocSet, h, ih]

theorem assocGet_assocSet_ne (m : List (String × Val)) (k' k : String)
    (v : Val) (h : k' ≠ k) :
    assocGet (assocSet m k' v) k = assocGet m k := by
  induction m with
  | nil => simp [assocGet, assocSet, h]
  | cons p rest ih =>
    by_cases hp : p.1 = k'
    · simp [assocGet, assocSet, hp, h]
    · simp [assocGet, assocSet, hp, ih]

theorem isSome_assocGet_assocSet (m : List (String × Val))
    (k' k : String) (v : Val) (h : (assocGet m k).isSome) :
    (assocGet (assocSet m k' v) k).isSome := by
  by_cases hk : k' = k
  · subst hk; simp [assocGet_assocSet_self]
  · rwa [assocGet_assocSet_ne m k' k v hk]

theorem assocGet_eq_none_of_not_mem (m : List (String × Val))
    (k : String) (h : k ∉ m.map Prod.fst) : assocGet m k = none := by
  induction m with
  | nil => rfl
  | cons p rest ih =>
    simp only [List.map_cons, List.mem_cons] at h
    push_neg at h
    have hne : ¬p.1 = k := fun hh => h.1 hh.symm
    simp [assocGet, hne, ih h.2]

theorem deepMerge_nil (base : List (String × Val)) :
    deepMerge base [] = base := by
  rw [deepMerge]

theorem deepMerge_cons (base : List (String × Val)) (k : String)
    (v : Val) (rest : List (String × Val)) :
    deepMerge base ((k, v) :: rest) =
      deepMerge (mergeStep base k v) rest := by
  rw [deepMerge]

/-- Every step of the merge loop is an `assocSet` at the step's key,
and when the override value is not a mapping it is exactly
`base[key] = value`. -/
theorem mergeStep_eq (base : List (String × Val)) (k : String)
    (v : Val) :
    ∃ w, mergeStep base k v = assocSet base k w ∧
      (v.isDict = false → w = v) := by
  cases v with
  | vdict od =>
    rcases hb : assocGet base k with _ | u
    · exact ⟨.vdict od, by simp [mergeStep, hb], fun h => rfl⟩
    · cases u with
      | vdict bd =>
        exact ⟨.vdict (deepMerge bd od), by simp [mergeStep, hb],
          fun h => by simp [Val.isDict] at h⟩
      | vstr s => exact ⟨.vdict od, by simp [mergeStep, hb], fun _ => rfl⟩
      | vint n => exact ⟨.vdict od, by simp [mergeStep, hb], fun _ => rfl⟩
      | vbool b => exact ⟨.vdict od, by simp [mergeStep, hb], fun _ => rfl⟩
      | vlist xs => exact ⟨.vdict od, by simp [mergeStep, hb], fun _ => rfl⟩
  | vstr s =>
    refine ⟨.vstr s, ?_, fun _ => rfl⟩
    rcases hb : assocGet base k with _ | u
    · simp [mergeStep, hb]
    · cases u <;> simp [mergeStep, hb]
  | vint n =>
    refine ⟨.vint n, ?_, fun _ => rfl⟩
    rcases hb : assocGet base k with _ | u
    · simp [mergeStep, hb]
    · cases u <;> simp [mergeStep, hb]
  | vbool b =>
    refine ⟨.vbool b, ?_, fun _ => rfl⟩
    rcases hb : assocGet base k with _ | u
    · simp [mergeStep, hb]
    · cases u <;> simp [mergeStep, hb]
  | vlist xs =>
    refine ⟨.vlist xs, ?_, fun _ => rfl⟩
    rcases hb : assocGet base k with _ | u
    · simp [mergeStep, hb]
    · cases u <;> simp [mergeStep, hb]

/-- A key that does not occur in the override is untouched by the
merge. -/
theorem deepMerge_get_of_not_mem (override : List (String × Val))
    (base : List (String × Val)) (k : String)
    (h : assocGet override k = none) :
    assocGet (deepMerge base override) k = assocGet base k := by
  induction override generalizing base with
  | nil => simp [deepMerge_nil]
  | cons p rest ih =>
    obtain ⟨k', v⟩ := p
    have hne : k' ≠ k := by
      intro hk; rw [assocGet, if_pos hk] at h; exact Option.noConfusion h
    have hrest : assocGet rest k = none := by
      rwa [assocGet, if_neg hne] at h
    obtain ⟨w, hw, -⟩ := mergeStep_eq base k' v
    rw [deepMerge_cons, hw, ih _ hrest, assocGet_assocSet_ne _ _ _ _ hne]

/-- A key bound in the override (whose keys are unique, as for every
Python dict) to a non-mapping value ends up bound to exactly that
value. -/
theorem deepMerge_get_scalar (override : List (String × Val))
    (base : List (String × Val)) (k : String) (v : Val)
    (hnd : (override.map Prod.fst).Nodup)
    (hget : assocGet override k = some v) (hv : v.isDict = false) :
    assocGet (deepMerge base override) k = some v := by
  induction override generalizing base with
  | nil => exact Option.noConfusion hget
  | cons p rest ih =>
    obtain ⟨k', v'⟩ := p
    simp only [List.map_cons, List.nodup_cons] at hnd
    by_cases hk : k' = k
    · subst hk
      rw [assocGet, if_pos rfl] at hget
      have hveq : v' = v := by injection hget
      subst hveq
      obtain ⟨w, hw, hwv⟩ := mergeStep_eq base k' v'
      rw [deepMerge_cons, hw, hwv hv,
        deepMerge_get_of_not_mem rest _ k'
          (assocGet_eq_none_of_not_mem rest k' hnd.1),
        assocGet_assocSet_self]
    · rw [assocGet, if_neg hk] at hget
      obtain ⟨w, hw, -⟩ := mergeStep_eq base k' v'
      rw [deepMerge_cons, hw]
      exact ih _ hnd.2 hget

/-- The merge never deletes a top-level key of `base`. -/
theorem deepMerge_isSome (override : List (String × Val))
    (base : List (String × Val)) (k : String)
    (h : (assocGet base k).isSome) :
    (assocGet (deepMerge base override) k).isSome := by
  induction override generalizing base with
  | nil => simpa [deepMerge_nil]
  | cons p rest ih =>
    obtain ⟨k', v⟩ := p
    obtain ⟨w, hw, -⟩ := mergeStep_eq base k' v
    rw [deepMerge_cons, hw]
    exact ih _ (isSome_assocGet_assocSet _ _ _ _ h)

/-! ## Helper lemmas: renderer -/

/-- `render_file` never reaches the defensive `ValueError` branch. -/
theorem render_file_ok (file_type : String) (ctx : Ctx) (tc : Val)
    (tool : String) :
    ∃ s, render_file file_type ctx tc tool = .ok s := by
  rw [render_file]
  by_cases h : knownFileTypes.contains file_type
  · rcases (by simpa [knownFileTypes] using h :
        file_type = "gitignore" ∨ file_type = "readme" ∨
        file_type = "makefile" ∨ file_type = "main" ∨
        file_type = "cli_main" ∨ file_type = "web_main" ∨
        file_type = "test") with h' | h' | h' | h' | h' | h' | h' <;>
      subst h' <;> simp [h] <;> exact ⟨_, rfl⟩
  · have hm : file_type ∉ knownFileTypes := by simpa using h
    refine ⟨render_pyproject ctx tc tool, ?_⟩
    simp [hm]

/-- An identifier outside `knownFileTypes` renders as the manifest. -/
theorem render_file_unknown (file_type : String) (ctx : Ctx) (tc : Val)
    (tool : String) (h : knownFileTypes.contains file_type = false) :
    render_file file_type ctx tc tool =
      .ok (render_pyproject ctx tc tool) := by
  rw [render_file]
  have hm : file_type ∉ knownFileTypes := by simpa using h
  simp [hm]

/-! ## Helper lemmas: generator effect traces -/

/-- The per-file loop emits no effect in dry-run mode. -/
theorem createFiles_dry_run (project_dir : String) (ctx : Ctx)
    (tc : Val) (tool : String) (l : List String) :
    (createFiles project_dir ctx tc tool true l).2 = [] := by
  induction l with
  | nil => rfl
  | cons a rest ih =>
    rw [createFiles]
    rcases h : render_file a ctx tc tool with e | s
    · rfl
    · simpa using ih

/-- `_create_project_structure` emits no effect in dry-run mode. -/
theorem createProjectStructure_dry_run (project_dir : String)
    (ctx : Ctx) (tc : Val) (tool : String) :
    (createProjectStructure project_dir ctx tc tool true).2 = [] := by
  rw [createProjectStructure]
  simp [createFiles_dry_run]

/-- If every file in the list renders, the loop emits, for each list
element, the `mkdir`-parent and `write` effects at the element's path,
in order. -/
theorem createFiles_mem (project_dir : String) (ctx : Ctx) (tc : Val)
    (tool : String) (l : List String) (ft : String) (s : String)
    (hft : ft ∈ l) (hok : render_file ft ctx tc tool = .ok s) :
    Eff.write (project_dir ++ "/" ++ getFilePath ft ctx.package_name) s ∈
      (createFiles project_dir ctx tc tool false l).2 := by
  induction l with
  | nil => exact absurd hft (List.not_mem_nil ft)
  | cons a rest ih =>
    obtain ⟨sa, hsa⟩ := render_file_ok a ctx tc tool
    rw [createFiles, hsa]
    simp only [Bool.false_eq_true, if_false]
    rcases List.mem_cons.mp hft with rfl | hmem
    · rw [hok] at hsa
      injection hsa with hseq
      subst hseq
      exact List.mem_cons_of_mem _ (List.mem_cons_self _ _)
    · exact List.mem_cons_of_mem _ (List.mem_cons_of_mem _ (ih hmem))

/-- Every file of the template's list is in the list the loop runs
over, and so is `"pyproject"`. -/
theorem mem_filesWithManifest (files : List String) (ft : String)
    (h : ft ∈ files) : ft ∈ filesWithManifest files := by
  rw [filesWithManifest]
  split
  · exact h
  · exact List.mem_append_left _ h

theorem pyproject_mem_filesWithManifest (files : List String) :
    "pyproject" ∈ filesWithManifest files := by
  rw [filesWithManifest]
  split
  · next hc => simpa using hc
  · exact List.mem_append_right _ (List.mem_singleton.mpr rfl)

/-! ## Helper lemmas: substring containment -/

theorem strContains_refl (x : String) : strContains x x :=
  ⟨[], [], by simp⟩

theorem strContains_left (a b x : String) (h : strContains a x) :
    strContains (a ++ b) x := by
  obtain ⟨s, t, hst⟩ := h
  exact ⟨s, t ++ b.data, by simp [String.data_append, ← hst]⟩

theorem strContains_right (a b x : String) (h : strContains b x) :
    strContains (a ++ b) x := by
  obtain ⟨s, t, hst⟩ := h
  exact ⟨a.data ++ s, t, by simp [String.data_append, ← hst]⟩

theorem strContains_here (x b : String) : strContains (x ++ b) x :=
  strContains_left x b x (strContains_refl x)

theorem strContains_there (b x : String) : strContains (b ++ x) x :=
  strContains_right b x x (strContains_refl x)

/-! ## Claim theorems -/

/-- C1: For every defaults mapping and every override mapping (with the
unique keys every Python dict has), the configuration deep-merge keeps
defaults keys absent from the override and replaces overlapping
non-mapping (scalar) keys with the override's value; in particular
merging the override `{a:1}` over the defaults `{a:0,b:2}` yields
exactly `{a:1,b:2}`. -/
theorem C1_deep_merge_override_wins (base override : List (String × Val))
    (k : String) (hnd : (override.map Prod.fst).Nodup) :
    (assocGet override k = none →
      assocGet (deepMerge base override) k = assocGet base k) ∧
    (∀ v : Val, assocGet override k = some v → v.isDict = false →
      assocGet (deepMerge base override) k = some v) ∧
    deepMerge [("a", Val.vint 0), ("b", Val.vint 2)] [("a", Val.vint 1)]
      = [("a", Val.vint 1), ("b", Val.vint 2)] := by
  refine ⟨fun h => deepMerge_get_of_not_mem _ _ _ h,
    fun v hv hvd => deepMerge_get_scalar _ _ _ _ hnd hv hvd, ?_⟩
  simp [deepMerge_cons, deepMerge_nil, mergeStep, assocGet, assocSet]

theorem C1_deep_merge_override_wins_witness :
    (([("a", Val.vint 1)].map (Prod.fst (α := String) (β := Val))).Nodup) ∧
    ((assocGet [("a", Val.vint 1)] "b" = none →
      assocGet (deepMerge [("a", Val.vint 0), ("b", Val.vint 2)]
        [("a", Val.vint 1)]) "b"
        = assocGet [("a", Val.vint 0), ("b", Val.vint 2)] "b") ∧
    (∀ v : Val, assocGet [("a", Val.vint 1)] "b" = some v →
      v.isDict = false →
      assocGet (deepMerge [("a", Val.vint 0), ("b", Val.vint 2)]
        [("a", Val.vint 1)]) "b" = some v) ∧
    deepMerge [("a", Val.vint 0), ("b", Val.vint 2)] [("a", Val.vint 1)]
      = [("a", Val.vint 1), ("b", Val.vint 2)]) :=
  ⟨by simp,
   C1_deep_merge_override_wins [("a", Val.vint 0), ("b", Val.vint 2)]
     [("a", Val.vint 1)] "b" (by simp)⟩

/-- C2 counterexample: the claim "every (possibly nested) key reachable
in the defaults mapping is still reachable in the merged configuration"
is false: merging the override `{a: 2}` over the defaults
`{a: {b: 1}}` (an override document the load accepts) destroys the
nested key `a.b`. -/
theorem C2_nested_default_key_deleted :
    pathReachable [("a", Val.vdict [("b", Val.vint 1)])] ["a", "b"]
      = true ∧
    pathReachable
      (deepMerge [("a", Val.vdict [("b", Val.vint 1)])]
        [("a", Val.vint 2)]) ["a", "b"] = false := by
  constructor
  · rfl
  · simp [deepMerge_cons, deepMerge_nil, mergeStep, assocGet, assocSet,
      pathReachable]

/-- C2 (amended): the deep-merge never deletes a TOP-LEVEL key of the
defaults: every top-level key of the defaults mapping is still bound in
the merged configuration. (A nested key can disappear when the override
rebinds an enclosing mapping to a non-mapping value, as the
counterexample shows.) -/
theorem C2_top_level_default_keys_preserved
    (base override : List (String × Val)) (k : String)
    (h : (assocGet base k).isSome) :
    (assocGet (deepMerge base override) k).isSome :=
  deepMerge_isSome override base k h

theorem C2_top_level_default_keys_preserved_witness :
    (assocGet [("a", Val.vdict [("b", Val.vint 1)])] "a").isSome = true ∧
    (assocGet
      (deepMerge [("a", Val.vdict [("b", Val.vint 1)])]
        [("a", Val.vint 2)]) "a").isSome = true :=
  ⟨by simp [assocGet],
   C2_top_level_default_keys_preserved
     [("a", Val.vdict [("b", Val.vint 1)])] [("a", Val.vint 2)] "a"
     (by simp [assocGet])⟩

/-- C3: a generate call with `dry_run = true` performs no filesystem
mutation — its effect trace is empty, so the filesystem is unchanged
and in particular a target directory `output_dir/project_name` (with
the name sanitized as `generate` does) that did not exist before the
call does not exist after it, for every input, even when the target
directory already exists and `force = true`. -/
theorem C3_dry_run_no_effects (configData : List (String × Val))
    (stdin : String → String) (project_name : String)
    (author email description : Option String) (template tool : String)
    (output_dir : String) (force : Bool) (fs : List String) :
    (generate configData stdin project_name author email description
      template tool output_dir force true fs).2 = [] ∧
    applyEffects fs (generate configData stdin project_name author email
      description template tool output_dir force true fs).2 = fs ∧
    (fsExists fs
        (output_dir ++ "/" ++ (pyReplaceChar (pyStrip project_name) ' ' '_'))
        = false →
      fsExists
        (applyEffects fs (generate configData stdin project_name author
          email description template tool output_dir force true fs).2)
        (output_dir ++ "/" ++ (pyReplaceChar (pyStrip project_name) ' ' '_'))
        = false) := by
  have heff : (generate configData stdin project_name author email
      description template tool output_dir force true fs).2 = [] := by
    rcases h : getTemplate configData template with _ | tc
    · simp [generate, h]
    · simp only [generate, h]
      split
    

      · rfl
      · simp [createProjectStructure_dry_run]
  refine ⟨heff, ?_, ?_⟩
  · rw [heff]; rfl
  · intro hex
    rw [heff]
    exact hex

theorem C3_dry_run_no_effects_witness :
    fsExists [] ("/out" ++ "/" ++ (pyReplaceChar (pyStrip " my app ") ' ' '_'))
      = false ∧
    ((generate DEFAULT_CONFIG (fun _ => "") " my app " (some "A")
      (some "a@b.c") (some "d") "minimal" "poetry" "/out" false true
      []).2 = [] ∧
    applyEffects [] (generate DEFAULT_CONFIG (fun _ => "") " my app "
      (some "A") (some "a@b.c") (some "d") "minimal" "poetry" "/out"
      false true []).2 = [] ∧
    (fsExists []
        ("/out" ++ "/" ++ (pyReplaceChar (pyStrip " my app ") ' ' '_')) = false →
      fsExists
        (applyEffects [] (generate DEFAULT_CONFIG (fun _ => "")
          " my app " (some "A") (some "a@b.c") (some "d") "minimal"
          "poetry" "/out" false true []).2)
        ("/out" ++ "/" ++ (pyReplaceChar (pyStrip " my app ") ' ' '_'))
        = false)) :=
  ⟨rfl,
   C3_dry_run_no_effects DEFAULT_CONFIG (fun _ => "") " my app "
     (some "A") (some "a@b.c") (some "d") "minimal" "poetry" "/out"
     false []⟩

/-- C4: a generate call with `force = false` whose target directory
already exists returns failure with an empty effect trace, leaving the
existing tree untouched (the filesystem after applying the trace is the
filesystem before), in dry-run and real mode alike. -/
theorem C4_existing_dir_without_force (configData : List (String × Val))
    (stdin : String → String) (project_name : String)
    (author email description : Option String) (template tool : String)
    (output_dir : String) (dry_run : Bool) (fs : List String)
    (hex : fsExists fs
      (output_dir ++ "/" ++ (pyReplaceChar (pyStrip project_name) ' ' '_'))
      = true) :
    generate configData stdin project_name author email description
      template tool output_dir false dry_run fs = (false, []) ∧
    applyEffects fs (generate configData stdin project_name author email
      description template tool output_dir false dry_run fs).2 = fs := by
  have hres : generate configData stdin project_name author email
      description template tool output_dir false dry_run fs
      = (false, []) := by
    rcases h : getTemplate configData template with _ | tc
    · simp [generate, h]
    · simp [generate, h, hex]
  exact ⟨hres, by rw [hres]; rfl⟩

theorem C4_existing_dir_without_force_witness :
    fsExists ["/out/proj"]
      ("/out" ++ "/" ++ (pyReplaceChar (pyStrip "proj") ' ' '_')) = true ∧
    (generate DEFAULT_CONFIG (fun _ => "") "proj" (some "A")
      (some "a@b.c") (some "d") "minimal" "poetry" "/out" false false
      ["/out/proj"] = (false, []) ∧
    applyEffects ["/out/proj"] (generate DEFAULT_CONFIG (fun _ => "")
      "proj" (some "A") (some "a@b.c") (some "d") "minimal" "poetry"
      "/out" false false ["/out/proj"]).2 = ["/out/proj"]) :=
  ⟨rfl,
   C4_existing_dir_without_force DEFAULT_CONFIG (fun _ => "") "proj"
     (some "A") (some "a@b.c") (some "d") "minimal" "poetry" "/out"
     false ["/out/proj"] rfl⟩

/-- C5: when the requested template name is not a key of the
configuration's `templates` mapping, generate returns failure with an
empty effect trace: the template lookup happens before any filesystem
effect, so no directory or file is created. -/
theorem C5_unknown_template_no_effects (configData : List (String × Val))
    (stdin : String → String) (project_name : String)
    (author email description : Option String) (template tool : String)
    (output_dir : String) (force dry_run : Bool) (fs : List String)
    (ts : List (String × Val))
    (hts : cfgGet configData "templates" (.vdict []) = .vdict ts)
    (hnk : assocGet ts template = none) :
    generate configData stdin project_name author email description
      template tool output_dir force dry_run fs = (false, []) ∧
    applyEffects fs (generate configData stdin project_name author email
      description template tool output_dir force dry_run fs).2 = fs := by
  have h : getTemplate configData template = none := by
    rw [getTemplate, hts]
    exact hnk
  have hres : generate configData stdin project_name author email
      description template tool output_dir force dry_run fs
      = (false, []) := by
    simp [generate, h]
  exact ⟨hres, by rw [hres]; rfl⟩

theorem C5_unknown_template_no_effects_witness :
    cfgGet [("templates", Val.vdict [])] "templates" (.vdict [])
      = .vdict [] ∧
    assocGet ([] : List (String × Val)) "bogus" = none ∧
    (generate [("templates", Val.vdict [])] (fun _ => "") "x" (some "A")
      (some "a@b.c") (some "d") "bogus" "poetry" "/out" false false []
      = (false, []) ∧
    applyEffects [] (generate [("templates", Val.vdict [])] (fun _ => "")
      "x" (some "A") (some "a@b.c") (some "d") "bogus" "poetry" "/out"
      false false []).2 = []) :=
  ⟨rfl, rfl,
   C5_unknown_template_no_effects [("templates", Val.vdict [])]
     (fun _ => "") "x" (some "A") (some "a@b.c") (some "d") "bogus"
     "poetry" "/out" false false [] [] rfl rfl⟩

/-- C6: the implicit appension of the manifest file type is idempotent
(appending `"pyproject"` to a list that already contains it returns the
list unchanged, so appending twice equals appending once), and for
every template defined in the configuration's defaults the file list
the generator runs over contains `"pyproject"` exactly once. -/
theorem C6_manifest_appended_once :
    (∀ l : List String,
      filesWithManifest (filesWithManifest l) = filesWithManifest l) ∧
    (∀ name ∈ (["standard", "minimal", "cli", "web"] : List String),
      ∃ tc, getTemplate DEFAULT_CONFIG name = some tc ∧
        (filesWithManifest
          (vStrList (vGet tc "files" (.vlist [])))).count "pyproject"
          = 1) := by
  constructor
  · intro l
    by_cases h : l.contains "pyproject"
    · have hm : "pyproject" ∈ l := by simpa using h
      simp [filesWithManifest, h, hm]
    · have hm : "pyproject" ∉ l := by simpa using h
      simp [filesWithManifest, h, hm]
  · intro name hname
    fin_cases hname
    · exact ⟨_, rfl, by decide⟩
    · exact ⟨_, rfl, by decide⟩
    · exact ⟨_, rfl, by decide⟩
    · exact ⟨_, rfl, by decide⟩

theorem C6_manifest_appended_once_witness :
    ("standard" ∈ (["standard", "minimal", "cli", "web"] : List String)) ∧
    (∃ tc, getTemplate DEFAULT_CONFIG "standard" = some tc ∧
      (filesWithManifest
        (vStrList (vGet tc "files" (.vlist [])))).count "pyproject"
        = 1) :=
  ⟨by decide, C6_manifest_appended_once.2 "standard" (by decide)⟩

/-- C7: the renderer's dispatch is total: every request renders
successfully (the defensive "Unknown file type" branch is unreachable),
and a file-type identifier outside the closed set
{gitignore, readme, makefile, main, cli_main, web_main, test} is
treated as the manifest request, returning the manifest content. -/
theorem C7_render_dispatch_total (file_type : String) (ctx : Ctx)
    (tc : Val) (tool : String) :
    (render_file file_type ctx tc tool).isOk = true ∧
    (knownFileTypes.contains file_type = false →
      render_file file_type ctx tc tool
        = .ok (render_pyproject ctx tc tool)) := by
  constructor
  · obtain ⟨s, hs⟩ := render_file_ok file_type ctx tc tool
    simp [hs, Except.isOk, Except.toBool]
  · exact fun h => render_file_unknown file_type ctx tc tool h

theorem C7_render_dispatch_total_witness :
    knownFileTypes.contains "bogus" = false ∧
    (render_file "bogus" sampleCtx sampleTc "poetry").isOk = true ∧
    render_file "bogus" sampleCtx sampleTc "poetry"
      = .ok (render_pyproject sampleCtx sampleTc "poetry") :=
  ⟨rfl, (C7_render_dispatch_total "bogus" sampleCtx sampleTc "poetry").1,
   (C7_render_dispatch_total "bogus" sampleCtx sampleTc "poetry").2 rfl⟩

/-- C8: for every render context, both manifest format variants (the
poetry-style and the uv-style pyproject) contain the context's package
name, author, email, description and python-version constraint
verbatim as substrings of the rendered output. -/
theorem C8_pyproject_roundtrip_fields (project_name package_name author
    email description python_version : String)
    (dependencies dev_deps : List String) :
    (strContains (render_poetry_pyproject project_name package_name
        author email description python_version dependencies dev_deps)
        package_name ∧
      strContains (render_poetry_pyproject project_name package_name
        author email description python_version dependencies dev_deps)
        author ∧
      strContains (render_poetry_pyproject project_name package_name
        author email description python_version dependencies dev_deps)
        email ∧
      strContains (render_poetry_pyproject project_name package_name
        author email description python_version dependencies dev_deps)
        description ∧
      strContains (render_poetry_pyproject project_name package_name
        author email description python_version dependencies dev_deps)
        python_version) ∧
    (strContains (render_uv_pyproject project_name package_name author
        email description python_version dependencies dev_deps)
        package_name ∧
      strContains (render_uv_pyproject project_name package_name author
        email description python_version dependencies dev_deps)
        author ∧
      strContains (render_uv_pyproject project_name package_name author
        email description python_version dependencies dev_deps)
        email ∧
      strContains (render_uv_pyproject project_name package_name author
        email description python_version dependencies dev_deps)
        description ∧
      strContains (render_uv_pyproject project_name package_name author
        email description python_version dependencies dev_deps)
        python_version) := by
  refine ⟨⟨?_, ?_, ?_, ?_, ?_⟩, ⟨?_, ?_, ?_, ?_, ?_⟩⟩
  · simp only [render_poetry_pyproject]
    iterate 19 apply strContains_left
    exact strContains_there _ _
  · simp only [render_poetry_pyproject]
    iterate 15 apply strContains_left
    exact strContains_there _ _
  · simp only [render_poetry_pyproject]
    iterate 13 apply strContains_left
    exact strContains_there _ _
  · simp only [render_poetry_pyproject]
    iterate 17 apply strContains_left
    exact strContains_there _ _
  · simp only [render_poetry_pyproject]
    iterate 9 apply strContains_left
    exact strContains_there _ _
  · simp only [render_uv_pyproject]
    iterate 20 apply strContains_left
    exact strContains_there _ _
  · simp only [render_uv_pyproject]
    iterate 16 apply strContains_left
    exact strContains_there _ _
  · simp only [render_uv_pyproject]
    iterate 14 apply strContains_left
    exact strContains_there _ _
  · simp only [render_uv_pyproject]
    iterate 18 apply strContains_left
    exact strContains_there _ _
  · simp only [render_uv_pyproject]
    iterate 12 apply strContains_left
    exact strContains_there _ _

/-- C9: refuted by the code (shallow-copy slip in `Config.load`):
`cls.DEFAULT_CONFIG.copy()` shares nested dict objects, so the first
load's `_deep_merge` writes through into `DEFAULT_CONFIG["author"]`.
With the override document `{author: {name: Alice}}`, the pristine
default author name is `"Your Name"`, but after one load the class
attribute holds `"Alice"`, and a second `Config.load` with no override
and no environment variables returns `"Alice"` — the second load is
affected by the first's overrides. -/
theorem C9_load_mutates_shared_defaults :
    dotGet (.vdict DEFAULT_CONFIG) ["author", "name"] (.vstr "")
      = .vstr "Your Name" ∧
    dotGet (.vdict (defaultsAfterLoad DEFAULT_CONFIG
        (some [("author", Val.vdict [("name", Val.vstr "Alice")])])
        none none)) ["author", "name"] (.vstr "")
      = .vstr "Alice" ∧
    dotGet (.vdict (loadData (defaultsAfterLoad DEFAULT_CONFIG
        (some [("author", Val.vdict [("name", Val.vstr "Alice")])])
        none none) none none none)) ["author", "name"] (.vstr "")
      = .vstr "Alice" := by
  refine ⟨rfl, ?_, ?_⟩ <;>
    simp [loadData, defaultsAfterLoad, DEFAULT_CONFIG, deepMerge_cons,
      deepMerge_nil, mergeStep, assocGet, assocSet, dotGet, Val.isDict]

/-- An identifier outside the path table (the seven closed file types
plus `"pyproject"`) maps to itself as a root-level relative path. -/
theorem getFilePath_unknown (ft pkg : String)
    (h7 : knownFileTypes.contains ft = false)
    (hpy : ft ≠ "pyproject") : getFilePath ft pkg = ft := by
  have hm : ft ∉ knownFileTypes := by simpa using h7
  simp only [knownFileTypes, List.mem_cons, List.mem_singleton,
    not_or] at hm
  obtain ⟨h1, h2, h3, h4, h5, h6, h7'⟩ := hm
  simp [getFilePath, h1, h2, h3, h4, h5, h6, h7', hpy]

/-- C10: when a template's file list contains an identifier outside
{gitignore, readme, makefile, main, cli_main, web_main, test,
pyproject}, the non-dry-run file-writing stage of generate
(`_create_project_structure`) writes the rendered manifest content to a
root-level file named by the raw identifier, and also writes the same
manifest content to `pyproject.toml`: the manifest is emitted twice
under two different paths. -/
theorem C10_raw_identifier_writes_manifest_twice (project_dir : String)
    (ctx : Ctx) (tc : Val) (tool : String) (ft : String)
    (hmem : ft ∈ vStrList (vGet tc "files" (.vlist [])))
    (hunk : knownFileTypes.contains ft = false)
    (hpy : ft ≠ "pyproject") :
    Eff.write (project_dir ++ "/" ++ ft)
      (render_pyproject ctx tc tool) ∈
      (createProjectStructure project_dir ctx tc tool false).2 ∧
    Eff.write (project_dir ++ "/" ++ "pyproject.toml")
      (render_pyproject ctx tc tool) ∈
      (createProjectStructure project_dir ctx tc tool false).2 := by
  have hok : render_file ft ctx tc tool
      = .ok (render_pyproject ctx tc tool) :=
    render_file_unknown ft ctx tc tool hunk
  have hokp : render_file "pyproject" ctx tc tool
      = .ok (render_pyproject ctx tc tool) :=
    render_file_unknown "pyproject" ctx tc tool rfl
  constructor
  · have h := createFiles_mem project_dir ctx tc tool
      (filesWithManifest (vStrList (vGet tc "files" (.vlist [])))) ft
      (render_pyproject ctx tc tool)
      (mem_filesWithManifest _ _ hmem) hok
    rw [getFilePath_unknown ft ctx.package_name hunk hpy] at h
    simp only [createProjectStructure]
    exact List.mem_append_right _ h
  · have h := createFiles_mem project_dir ctx tc tool
      (filesWithManifest (vStrList (vGet tc "files" (.vlist []))))
      "pyproject" (render_pyproject ctx tc tool)
      (pyproject_mem_filesWithManifest _) hokp
    rw [show getFilePath "pyproject" ctx.package_name
      = "pyproject.toml" from rfl] at h
    simp only [createProjectStructure]
    exact List.mem_append_right _ h

theorem C10_raw_identifier_writes_manifest_twice_witness :
    ("weird" ∈ vStrList (vGet sampleTc "files" (.vlist []))) ∧
    knownFileTypes.contains "weird" = false ∧
    "weird" ≠ "pyproject" ∧
    (Eff.write ("/out/p" ++ "/" ++ "weird")
      (render_pyproject sampleCtx sampleTc "poetry") ∈
      (createProjectStructure "/out/p" sampleCtx sampleTc "poetry"
        false).2 ∧
    Eff.write ("/out/p" ++ "/" ++ "pyproject.toml")
      (render_pyproject sampleCtx sampleTc "poetry") ∈
      (createProjectStructure "/out/p" sampleCtx sampleTc "poetry"
        false).2) :=
  ⟨by decide, rfl, by decide,
   C10_raw_identifier_writes_manifest_twice "/out/p" sampleCtx sampleTc
     "poetry" "weird" (by decide) rfl (by decide)⟩

end Pyfresh
